import Mathlib

/-!
Shallow embedding of `src/main/cpp/blaze_util_darwin.cc`, the Darwin
implementation of the blaze platform-primitives layer, together with
theorems checking the natural-language specification against it.

Modelling conventions:
* Each primitive is a pure function of the result of the single OS call it
  wraps.  The OS call's outcome is passed in explicitly: `none` models the
  failing return (`getsockopt(...) < 0`, `proc_pidpath(...) == 0`,
  `gettimeofday(...) < 0`, `proc_pidinfo(...) != sizeof(info)`), and
  `some v` models a successful call whose out-parameters hold `v`.
* `pdie(code, msg)` terminates the process; it is modelled as the
  `Except.error` constructor carrying the exit code and message.  An
  `Except.error` result therefore means "the process was terminated with
  this tagged fatal error", never a recoverable error value handed to the
  caller.
* C `std::string` values are Lean `String`s; `pid_t` and C integers are
  `Int`.  The `uint64` return of the clocks is a `Nat` reduced modulo
  `2 ^ 64 = 18446744073709551616`, mirroring the implicit conversion of the
  signed 64-bit expression to `uint64`.
* Functions with no return value and no OS effect are modelled as
  identities on an explicit piece of state, so that "does nothing" is a
  provable statement rather than a typing accident.
-/

/-- Modelled from the spec: `blaze_exit_code.h` is not part of the visible
source; the spec's error-handling table names exactly two tags used by this
translation unit, `InternalError` for must-succeed primitives and
`EnvironmentalError` (`LOCAL_ENVIRONMENTAL_ERROR`) for peer-identity
failure. -/
inductive ExitCode where
  | INTERNAL_ERROR
  | LOCAL_ENVIRONMENTAL_ERROR
deriving DecidableEq, Repr

/-- The payload of a `pdie` call: the exit-code tag and the diagnostic
message.  A value of this type models the process being terminated. -/
structure Fatal where
  code : ExitCode
  msg : String
deriving DecidableEq, Repr

/-- `struct timeval` as filled in by `gettimeofday`: seconds and
microseconds of wall-clock time since the Unix epoch. -/
structure Timeval where
  tv_sec : Int
  tv_usec : Int
deriving DecidableEq, Repr

/-- A `gettimeofday` observation is well formed when both fields are
non-negative and the microsecond field is below one million, as the OS
guarantees for a successful call. -/
def Timeval.wf (ts : Timeval) : Prop :=
  0 ≤ ts.tv_sec ∧ 0 ≤ ts.tv_usec ∧ ts.tv_usec < 1000000

instance (ts : Timeval) : Decidable ts.wf := by
  unfold Timeval.wf; infer_instance

/-- Observable scheduling state of the calling process, for expressing that
`SetScheduling` changes nothing. -/
structure SchedState where
  cpuSchedClass : Int
  ioSchedClass : Int
deriving DecidableEq, Repr

/-- `WarnFilesystemType(output_base)`: the function body is empty (both
checks are TODO comments), so on any output base it leaves the stream of
emitted warnings untouched.  The warning stream is made explicit so that
"emits no warning" is a provable equation. -/
def WarnFilesystemType (output_base : String) (warnings : List String) :
    List String :=
  warnings

/-- `GetPeerProcessId(socket)`: wraps
`getsockopt(socket, SOL_LOCAL, LOCAL_PEERPID, &pid, &len)`.  The argument is
the OS call's outcome: `none` when it returned a negative value, in which
case the code calls `pdie(LOCAL_ENVIRONMENTAL_ERROR, ...)`; `some pid` when
it succeeded and stored `pid`, which is returned unchanged. -/
def GetPeerProcessId (r : Option Int) : Except Fatal Int :=
  match r with
  | none => .error ⟨.LOCAL_ENVIRONMENTAL_ERROR, "can't get server pid from connection"⟩
  | some pid => .ok pid

/-- The OS contract for `getsockopt(..., LOCAL_PEERPID, ...)` on a valid
open local connection: there is an actual process on the other end, its id
is positive, and whenever the query succeeds it reports exactly that id. -/
structure PeerOS where
  actualPeerPid : Int
  query : Option Int
  actual_pos : 0 < actualPeerPid
  query_correct : ∀ p, query = some p → p = actualPeerPid

/-- `GetSelfPath()`: wraps `proc_pidpath(getpid(), pathbuf, ...)`.  The
argument is the OS call's outcome: `none` when it returned length 0, in
which case the code calls `pdie(INTERNAL_ERROR, ...)`; `some p` when it
succeeded and filled the buffer with the `len` bytes of `p`, which are
returned as the result string. -/
def GetSelfPath (r : Option String) : Except Fatal String :=
  match r with
  | none => .error ⟨.INTERNAL_ERROR, "error calling proc_pidpath"⟩
  | some p => .ok p

/-- `MonotonicClock()`: wraps `gettimeofday(&ts, NULL)`.  `none` models a
negative return, on which the code calls `pdie(INTERNAL_ERROR, ...)`; on
success it returns `ts.tv_sec * 1000000000LL + ts.tv_usec * 1000`, a signed
64-bit expression implicitly converted to the `uint64` result, modelled by
reducing the exact integer modulo `2 ^ 64`. -/
def MonotonicClock (r : Option Timeval) : Except Fatal Nat :=
  match r with
  | none => .error ⟨.INTERNAL_ERROR, "error calling gettimeofday"⟩
  | some ts =>
      .ok ((ts.tv_sec * 1000000000 + ts.tv_usec * 1000) % 18446744073709551616).toNat

/-- `ProcessClock()`: the body is exactly `return MonotonicClock();`. -/
def ProcessClock (r : Option Timeval) : Except Fatal Nat :=
  MonotonicClock r

/-- `SetScheduling(batch_cpu_scheduling, io_nice_level)`: the body is empty
("stubbed out so we can compile for Darwin"), so the process's scheduling
state is returned unchanged for every input. -/
def SetScheduling (batch_cpu_scheduling : Bool) (io_nice_level : Int)
    (s : SchedState) : SchedState :=
  s

/-- `GetProcessCWD(pid)`: wraps
`proc_pidinfo(pid, PROC_PIDVNODEPATHINFO, 0, &info, sizeof(info))`.  `none`
models a return value different from `sizeof(info)` (e.g. a non-existent
pid), on which the code returns the empty string; `some p` models success
with `info.pvi_cdir.vip_path` holding `p`, which is returned. -/
def GetProcessCWD (r : Option String) : String :=
  match r with
  | none => ""
  | some p => p

/-- Modelled from the spec: `blaze_util::ends_with` lives in
`util/strings.h` / `util/strings.cc`, which are not part of the visible
source.  Per the spec's table, `IsSharedLibraryName` is a pure suffix test
on the filename, so `ends_with(str, suffix)` holds exactly when the byte
sequence `suffix` is a suffix of `str`. -/
def ends_with (str suffix : String) : Bool :=
  List.isSuffixOf suffix.data str.data

/-- `IsSharedLibrary(filename)`: the body is
`return blaze_util::ends_with(filename, ".dylib");`. -/
def IsSharedLibrary (filename : String) : Bool :=
  ends_with filename ".dylib"

/-- C1: the claim asserts `MonotonicClock` never decreases across two
successive calls, including across system wall-clock adjustments.  The code
reads `gettimeofday`, the adjustable wall clock, so the claim fails: both
observations below are well-formed `gettimeofday` results (the second one
after the wall clock was set back 50 seconds), yet the later call returns a
strictly smaller value than the earlier call. -/
theorem monotonicClock_decreases_on_wall_clock_step_back :
    Timeval.wf ⟨100, 0⟩ ∧ Timeval.wf ⟨50, 0⟩ ∧
    MonotonicClock (some ⟨100, 0⟩) = .ok 100000000000 ∧
    MonotonicClock (some ⟨50, 0⟩) = .ok 50000000000 ∧
    (50000000000 : Nat) < 100000000000 :=
  ⟨by decide, by decide, rfl, rfl, by norm_num⟩

/-- C2: `ProcessClock` is extensionally equal to `MonotonicClock`: for every
outcome of the underlying OS clock query, the two functions return exactly
the same value (the per-process-accounting fallback case of the spec). -/
theorem processClock_eq_monotonicClock :
    ∀ r : Option Timeval, ProcessClock r = MonotonicClock r :=
  fun _ => rfl

/-- C2 witness: the equality instantiated at a concrete clock reading. -/
theorem processClock_eq_monotonicClock_at_input :
    ProcessClock (some ⟨3, 5⟩) = MonotonicClock (some ⟨3, 5⟩) :=
  processClock_eq_monotonicClock (some ⟨3, 5⟩)

/-- C3: on this OS `.dylib` is the native shared-library suffix, so
`IsSharedLibrary` accepts `"foo.dylib"` and rejects `"foo.so"`,
`"foo.dll"` and `"foo.txt"`. -/
theorem isSharedLibrary_native_suffix_only :
    IsSharedLibrary "foo.dylib" = true ∧
    IsSharedLibrary "foo.so" = false ∧
    IsSharedLibrary "foo.dll" = false ∧
    IsSharedLibrary "foo.txt" = false := by
  refine ⟨?_, ?_, ?_, ?_⟩ <;> decide

/-- C4: `GetPeerProcessId` terminates the program with a fatal error tagged
`LOCAL_ENVIRONMENTAL_ERROR` exactly when the `getsockopt` peer-identity
query fails, and on success returns the id the OS reported unchanged —
which, by the OS contract for a valid open connection (`PeerOS`), is the
positive actual id of the process holding the other end. -/
theorem getPeerProcessId_fatal_iff_query_fails :
    (∀ r : Option Int,
      (∃ m, GetPeerProcessId r = .error ⟨.LOCAL_ENVIRONMENTAL_ERROR, m⟩) ↔ r = none) ∧
    (∀ os : PeerOS, ∀ p, GetPeerProcessId os.query = .ok p →
      p = os.actualPeerPid ∧ 0 < p) := by
  constructor
  · intro r
    constructor
    · rintro ⟨m, h⟩
      cases r with
      | none => rfl
      | some pid => simp [GetPeerProcessId] at h
    · rintro rfl
      exact ⟨"can't get server pid from connection", rfl⟩
  · intro os p h
    cases hq : os.query with
    | none => rw [hq] at h; simp [GetPeerProcessId] at h
    | some q =>
        rw [hq] at h
        simp [GetPeerProcessId] at h
        have hpq : q = os.actualPeerPid := os.query_correct q hq
        subst h
        exact ⟨hpq, hpq ▸ os.actual_pos⟩

/-- A concrete OS peer for the C4 witness: the actual peer pid is 7 and the
query succeeds reporting 7. -/
def peerOSExample : PeerOS :=
  ⟨7, some 7, by norm_num, fun p h => (Option.some.inj h).symm⟩

/-- C4 witness: on the concrete peer above, the successful query returns the
actual, positive peer pid, and the failing query terminates with the
environmental-error tag. -/
theorem getPeerProcessId_fatal_iff_query_fails_at_input :
    ((7 : Int) = peerOSExample.actualPeerPid ∧ (0 : Int) < 7) ∧
    (∃ m, GetPeerProcessId none = .error ⟨.LOCAL_ENVIRONMENTAL_ERROR, m⟩) :=
  ⟨getPeerProcessId_fatal_iff_query_fails.2 peerOSExample 7 rfl,
   (getPeerProcessId_fatal_iff_query_fails.1 none).mpr rfl⟩

/-- C5: the must-succeed primitives `GetSelfPath` and `MonotonicClock`
terminate the program with a fatal error tagged `INTERNAL_ERROR` exactly
when their underlying OS call fails, and on a successful OS call they
return an ordinary value, never an error value. -/
theorem must_succeed_primitives_die_with_internal_error :
    (∀ r : Option String,
      (∃ m, GetSelfPath r = .error ⟨.INTERNAL_ERROR, m⟩) ↔ r = none) ∧
    (∀ r : Option Timeval,
      (∃ m, MonotonicClock r = .error ⟨.INTERNAL_ERROR, m⟩) ↔ r = none) ∧
    (∀ p, GetSelfPath (some p) = .ok p) ∧
    (∀ ts : Timeval, ∃ v, MonotonicClock (some ts) = .ok v) := by
  refine ⟨fun r => ?_, fun r => ?_, fun p => rfl, fun ts => ⟨_, rfl⟩⟩
  · constructor
    · rintro ⟨m, h⟩
      cases r with
      | none => rfl
      | some p => simp [GetSelfPath] at h
    · rintro rfl
      exact ⟨"error calling proc_pidpath", rfl⟩
  · constructor
    · rintro ⟨m, h⟩
      cases r with
      | none => rfl
      | some ts => simp [MonotonicClock] at h
    · rintro rfl
      exact ⟨"error calling gettimeofday", rfl⟩

/-- C5 witness: concrete instances — a failing path query dies with the
internal-error tag, and a successful one returns the path. -/
theorem must_succeed_primitives_die_with_internal_error_at_input :
    (∃ m, GetSelfPath none = .error ⟨.INTERNAL_ERROR, m⟩) ∧
    GetSelfPath (some "/usr/bin/bazel") = .ok "/usr/bin/bazel" :=
  ⟨(must_succeed_primitives_die_with_internal_error.1 none).mpr rfl,
   must_succeed_primitives_die_with_internal_error.2.2.1 "/usr/bin/bazel"⟩

/-- C6: `GetProcessCWD` is a total function into plain strings (no
`Fatal`-carrying result type, so it can neither fail nor terminate the
program): when the OS cannot report the working directory — in particular
for a non-existent pid — it returns the empty string, and when the OS
reports a directory it returns exactly that path. -/
theorem getProcessCWD_empty_on_failure_path_on_success :
    GetProcessCWD none = "" ∧ (∀ p, GetProcessCWD (some p) = p) :=
  ⟨rfl, fun _ => rfl⟩

/-- C6 witness: the two cases at concrete inputs. -/
theorem getProcessCWD_empty_on_failure_path_on_success_at_input :
    GetProcessCWD none = "" ∧ GetProcessCWD (some "/home/user/src") = "/home/user/src" :=
  ⟨getProcessCWD_empty_on_failure_path_on_success.1,
   getProcessCWD_empty_on_failure_path_on_success.2 "/home/user/src"⟩

/-- C7: `SetScheduling` is a silent no-op: for every combination of the
batch-scheduling flag and io-nice level it returns the scheduling state
unchanged, and its result type carries no error, so it can neither raise an
error nor terminate the program. -/
theorem setScheduling_is_noop :
    ∀ (b : Bool) (i : Int) (s : SchedState), SetScheduling b i s = s :=
  fun _ _ _ => rfl

/-- C7 witness: the no-op equation at a concrete input. -/
theorem setScheduling_is_noop_at_input :
    SetScheduling true 7 ⟨1, 2⟩ = ⟨1, 2⟩ :=
  setScheduling_is_noop true 7 ⟨1, 2⟩

/-- C8: `WarnFilesystemType` is a no-op stub: for every output base it
leaves the warning stream unchanged (emits nothing), and its result type
carries no error, so it never fails. -/
theorem warnFilesystemType_is_noop :
    ∀ (output_base : String) (warnings : List String),
      WarnFilesystemType output_base warnings = warnings :=
  fun _ _ => rfl

/-- C8 witness: the no-op equation at a concrete input. -/
theorem warnFilesystemType_is_noop_at_input :
    WarnFilesystemType "/output/base" ["earlier warning"] = ["earlier warning"] :=
  warnFilesystemType_is_noop "/output/base" ["earlier warning"]

/-- C9: for every well-formed `gettimeofday` observation whose nanosecond
value fits in a signed 64-bit integer (so no overflow occurs), the clock
value is computed exactly as `tv_sec * 1000000000 + tv_usec * 1000`, is a
multiple of 1000, and is also the value `ProcessClock` returns: despite the
nanosecond denomination the clock has only microsecond resolution. -/
theorem monotonicClock_is_multiple_of_1000 (ts : Timeval)
    (hwf : ts.wf)
    (hfit : ts.tv_sec * 1000000000 + ts.tv_usec * 1000 < 9223372036854775808) :
    MonotonicClock (some ts) = .ok ((ts.tv_sec * 1000000000 + ts.tv_usec * 1000).toNat) ∧
    (1000 : Nat) ∣ ((ts.tv_sec * 1000000000 + ts.tv_usec * 1000).toNat) ∧
    ProcessClock (some ts) = MonotonicClock (some ts) := by
  obtain ⟨h0, h1, h2⟩ := hwf
  refine ⟨?_, by omega, rfl⟩
  simp only [MonotonicClock]
  rw [Int.emod_eq_of_lt (by omega) (by omega)]

/-- C9 witness: at the observation 100 s + 7 µs the clock returns
100000007000 ns, a multiple of 1000. -/
theorem monotonicClock_is_multiple_of_1000_at_input :
    MonotonicClock (some ⟨100, 7⟩) = .ok ((100 * 1000000000 + 7 * 1000 : Int).toNat) ∧
    (1000 : Nat) ∣ ((100 * 1000000000 + 7 * 1000 : Int).toNat) ∧
    ProcessClock (some ⟨100, 7⟩) = MonotonicClock (some ⟨100, 7⟩) :=
  monotonicClock_is_multiple_of_1000 ⟨100, 7⟩ (by decide) (by norm_num)

/-- C10: `IsSharedLibrary` depends only on the filename's suffix and is
case-sensitive: it returns `true` exactly when the characters `".dylib"`
are a suffix of the filename (in particular on the bare string `".dylib"`),
and `false` otherwise, including on `"foo.DYLIB"` and `"foo.dylib.txt"`. -/
theorem isSharedLibrary_iff_dylib_suffix :
    (∀ s : String, IsSharedLibrary s = true ↔ List.IsSuffix (String.data ".dylib") s.data) ∧
    IsSharedLibrary ".dylib" = true ∧
    IsSharedLibrary "foo.DYLIB" = false ∧
    IsSharedLibrary "foo.dylib.txt" = false := by
  refine ⟨fun s => ?_, by decide, by decide, by decide⟩
  unfold IsSharedLibrary ends_with
  exact List.isSuffixOf_iff_suffix

/-- C10 witness: the characterisation applied at a concrete filename with a
preceding stem. -/
theorem isSharedLibrary_iff_dylib_suffix_at_input :
    IsSharedLibrary "libfoo.dylib" = true :=
  (isSharedLibrary_iff_dylib_suffix.1 "libfoo.dylib").mpr (by decide)
